import Mathlib

/-!
Verification of the persistent-connection client protocol handler
(`src/client/src/net.rs`): connection state model, network event reducer,
and the WebSocket lifecycle callbacks built by `open_ws`.

The reducer in the source mutates a `&mut Model` and returns an
`Update<ModelEvent>` that is either `Render` or `Skip`; here it is embedded
as a pure function returning the new model, the effect, and the trace of
byte frames transmitted over the socket (the one side effect the
`SendRequest` arm performs besides the state update).
-/

/-- A WebSocket handle (`web_sys::WebSocket`). The reducer only stores,
compares and clears handles, and hands frames to the external send
primitive, so the handle is embedded as an identity tag. -/
structure WebSocket where
  id : Nat
deriving DecidableEq, Repr

/-- The enumeration of the types of closures used in `net.rs`
(`WSClosure`): `HandleM` wraps a message-event closure, `HandleV` wraps a
JS-value closure. The reducer never invokes a stored closure — it only
owns and releases them — so each variant carries an identity tag standing
for the opaque JS closure object. -/
inductive WSClosure
  | HandleM (id : Nat)
  | HandleV (id : Nat)
deriving DecidableEq, Repr

/-- The subset of the app's data model related to networking
(`NetworkState` in `net.rs`). A populated `socket` does not indicate a
live connection. -/
structure NetworkState where
  connected : Bool
  socket : Option WebSocket
  closures : List WSClosure
deriving DecidableEq, Repr

/-- The `#[derive(Default)]` value of `NetworkState`: not connected, no
socket, no closures. -/
def NetworkState.initial : NetworkState :=
  { connected := false, socket := none, closures := [] }

/-- Modelled from the spec: an outgoing Request frame of the external
binary schema (`proto::api::RequestFrame`, a prost protobuf message whose
field layout is out of scope). Embedded as its payload bytes. -/
structure RequestFrame where
  payload : List Nat
deriving DecidableEq, Repr

/-- Modelled from the spec: the Frame Codec's `encode(request) -> bytes`,
a total function over well-formed request values that never fails
(`req.encode(&mut buf).unwrap()` in the source, commented "This will
never fail."). Embedded as a concrete total framing: a 0 tag byte
followed by the payload. -/
def RequestFrame.encode (req : RequestFrame) : List Nat :=
  0 :: req.payload

/-- Modelled from the spec: an incoming Response frame of the external
binary schema (`proto::api::ResponseFrame`). Embedded as its payload
bytes. -/
structure ResponseFrame where
  payload : List Nat
deriving DecidableEq, Repr

/-- Modelled from the spec: the Frame Codec's partial
`decode(bytes) -> response | DecodeError` (`ResponseFrame::decode`), an
external prost decoder that must reject malformed input without throwing
uncontrolled faults. Embedded as a concrete partial inverse of
`RequestFrame.encode`-style framing: a frame is valid exactly when it
starts with the 0 tag byte. -/
def ResponseFrame.decode (buf : List Nat) : Except String ResponseFrame :=
  match buf with
  | 0 :: rest => Except.ok { payload := rest }
  | _ => Except.error "invalid frame tag"

/-- An enumeration of all network related events to be handled
(`NetworkEvent` in `net.rs`). -/
inductive NetworkEvent
  | Connected
  | Disconnected
  | NewSocket (ws : WebSocket)
  | NewClosure (cb : WSClosure)
  | SendRequest (req : RequestFrame)
deriving DecidableEq, Repr

/-- Modelled from the spec: the slice of the application data model
(`state::Model`, whose source file is not in the repository snapshot)
that `NetworkEvent::reducer` reads or writes: the networking substate,
the pending-input buffer `input_text`, and the sent-message counter
`msg_tx_cnt`. -/
structure Model where
  network : NetworkState
  input_text : String
  msg_tx_cnt : Nat
deriving DecidableEq, Repr

/-- Modelled from the spec: the application model at application start —
default networking state, empty pending-input buffer, zero sent-message
counter. -/
def Model.initial : Model :=
  { network := NetworkState.initial, input_text := "", msg_tx_cnt := 0 }

/-- The side-effect directive returned by the reducer (`Update<ModelEvent>`
built from seed's `Render.into()` / `Skip.into()`): re-render or no-op. -/
inductive Effect
  | Render
  | Skip
deriving DecidableEq, Repr

/-- The reducer for the network state model (`NetworkEvent::reducer`).
Returns the updated model, the effect, and the byte frames transmitted
over the socket during the step (`ws.send_with_u8_array`; transmission is
assumed to succeed — the source marks its failure as an unhandled TODO
and aborts there). -/
def NetworkEvent.reducer (event : NetworkEvent) (model : Model) :
    Model × Effect × List (List Nat) :=
  match event with
  | NetworkEvent.Connected =>
      ({ model with network := { model.network with connected := true } },
       Effect.Render, [])
  | NetworkEvent.Disconnected =>
      ({ model with network :=
          { model.network with connected := false, socket := none, closures := [] } },
       Effect.Render, [])
  | NetworkEvent.NewSocket ws =>
      ({ model with network := { model.network with socket := some ws } },
       Effect.Render, [])
  | NetworkEvent.NewClosure cb =>
      ({ model with network :=
          { model.network with closures := model.network.closures ++ [cb] } },
       Effect.Skip, [])
  | NetworkEvent.SendRequest req =>
      match model.network.socket with
      | none => (model, Effect.Skip, [])
      | some _ws =>
          let buf := req.encode
          ({ model with input_text := "", msg_tx_cnt := model.msg_tx_cnt + 1 },
           Effect.Render, [buf])

/-- Modelled from the spec: the events the application store can carry
(`state::ModelEvent`, whose source file is not in the repository
snapshot), restricted to the variants `net.rs` dispatches: network
lifecycle events and decoded server messages. -/
inductive ModelEvent
  | Network (e : NetworkEvent)
  | ServerMsg (frame : ResponseFrame)
deriving DecidableEq, Repr

/-- The payload of a JS message event as seen by the message callback:
either a raw `ArrayBuffer` of bytes, or some other JS value (string,
blob, ...) that `dyn_into::<ArrayBuffer>` rejects. -/
inductive JsValue
  | arrayBuffer (bytes : List Nat)
  | other (desc : String)
deriving DecidableEq, Repr

/-- A `web_sys::MessageEvent`, reduced to the `data()` payload the
handler extracts. -/
structure MessageEvent where
  data : JsValue
deriving DecidableEq, Repr

/-- Handler for when a connection is open (`build_on_open`): dispatches
`Connected` into the store. A handler is embedded as the list of events
it dispatches via `state.update` on one invocation. -/
def build_on_open : JsValue → List ModelEvent :=
  fun _ => [ModelEvent.Network NetworkEvent.Connected]

/-- Handler for when a connection is closed (`build_on_close`): dispatches
`Disconnected` into the store. -/
def build_on_close : JsValue → List ModelEvent :=
  fun _ => [ModelEvent.Network NetworkEvent.Disconnected]

/-- Handler for websocket messages (`build_on_message`): extracts the raw
bytes (dropping the event with a diagnostic log if the payload is not an
`ArrayBuffer`), decodes them with `ResponseFrame::decode` (dropping the
event with a diagnostic log on failure), and otherwise logs and
dispatches the decoded frame as a `ServerMsg`. Returns the dispatched
events and the emitted log lines. -/
def build_on_message (ev : MessageEvent) : List ModelEvent × List String :=
  match ev.data with
  | JsValue.other _ =>
      ([], ["Received an unexpected message from the server which was not a raw byte array."])
  | JsValue.arrayBuffer buf =>
      match ResponseFrame.decode buf with
      | Except.error err =>
          ([], ["Failed to decode server message: " ++ err])
      | Except.ok frame =>
          ([ModelEvent.ServerMsg frame], ["Decoded message"])

/-- The four lifecycle callbacks `open_ws` builds and registers on the
freshly created socket. -/
structure OpenWsHandlers where
  on_open : JsValue → List ModelEvent
  on_close : JsValue → List ModelEvent
  on_message : MessageEvent → List ModelEvent × List String
  on_error : JsValue → List ModelEvent

/-- The callback wiring performed by `open_ws`: the open handler is built
by `build_on_open`, the close handler by `build_on_close`, the message
handler by `build_on_message`, and the error handler is also built by
`build_on_close` (`let on_error = build_on_close(state.clone())`). -/
def open_ws : OpenWsHandlers :=
  { on_open := build_on_open
  , on_close := build_on_close
  , on_message := build_on_message
  , on_error := build_on_close }

/-- A concrete model with a live socket, used by witnesses. -/
def modelWithSocket : Model :=
  { network := { connected := true, socket := some { id := 0 }, closures := [] }
  , input_text := "hi", msg_tx_cnt := 3 }

/-- A concrete model with no socket, used by witnesses. -/
def modelNoSocket : Model :=
  { network := { connected := false, socket := none
               , closures := [WSClosure.HandleV 1] }
  , input_text := "draft", msg_tx_cnt := 5 }

/-- Applying a list of dispatched events to the model: network events go
through `NetworkEvent.reducer`; `ServerMsg` events are forwarded to the
broader application reducer, which is outside this core and does not
touch the networking substate. -/
def applyDispatched (m : Model) (evs : List ModelEvent) : Model :=
  evs.foldl (fun s e =>
    match e with
    | ModelEvent.Network ne => (NetworkEvent.reducer ne s).1
    | ModelEvent.ServerMsg _ => s) m

/-- C1: For every prior state, applying the `Disconnected` event to the
reducer sets `connected` to false, sets the transport to none, empties
the callbacks list, and returns the `Render` effect. -/
theorem disconnected_resets_state (m : Model) :
    (NetworkEvent.reducer NetworkEvent.Disconnected m).1.network.connected = false
    ∧ (NetworkEvent.reducer NetworkEvent.Disconnected m).1.network.socket = none
    ∧ (NetworkEvent.reducer NetworkEvent.Disconnected m).1.network.closures = []
    ∧ (NetworkEvent.reducer NetworkEvent.Disconnected m).2.1 = Effect.Render := by
  simp [NetworkEvent.reducer]

/-- C2: For every prior state with no transport, `SendRequest` leaves the
whole model unchanged (in particular `connected`, the socket, the
closures, the pending-input buffer and `msg_tx_cnt`), transmits nothing,
and returns the `Skip` effect. -/
theorem sendRequest_no_socket_skips (req : RequestFrame) (m : Model)
    (h : m.network.socket = none) :
    NetworkEvent.reducer (NetworkEvent.SendRequest req) m = (m, Effect.Skip, []) := by
  simp [NetworkEvent.reducer, h]

/-- C2 witness: the no-transport `SendRequest` theorem at a concrete
model and request. -/
theorem sendRequest_no_socket_skips_witness :
    NetworkEvent.reducer (NetworkEvent.SendRequest { payload := [1, 2] }) modelNoSocket
      = (modelNoSocket, Effect.Skip, []) :=
  sendRequest_no_socket_skips { payload := [1, 2] } modelNoSocket rfl

/-- C3: For every prior state with a transport present, `SendRequest`
(with the transmission succeeding, as the embedding assumes) increments
the sent-message counter by exactly 1, clears the pending-input buffer,
and returns the `Render` effect. -/
theorem sendRequest_with_socket (req : RequestFrame) (m : Model) (ws : WebSocket)
    (h : m.network.socket = some ws) :
    (NetworkEvent.reducer (NetworkEvent.SendRequest req) m).1.msg_tx_cnt = m.msg_tx_cnt + 1
    ∧ (NetworkEvent.reducer (NetworkEvent.SendRequest req) m).1.input_text = ""
    ∧ (NetworkEvent.reducer (NetworkEvent.SendRequest req) m).2.1 = Effect.Render := by
  simp [NetworkEvent.reducer, h]

/-- C3 witness: the with-transport `SendRequest` theorem at a concrete
model and request. -/
theorem sendRequest_with_socket_witness :
    (NetworkEvent.reducer (NetworkEvent.SendRequest { payload := [9] }) modelWithSocket).1.msg_tx_cnt
      = modelWithSocket.msg_tx_cnt + 1
    ∧ (NetworkEvent.reducer (NetworkEvent.SendRequest { payload := [9] }) modelWithSocket).1.input_text = ""
    ∧ (NetworkEvent.reducer (NetworkEvent.SendRequest { payload := [9] }) modelWithSocket).2.1
      = Effect.Render :=
  sendRequest_with_socket { payload := [9] } modelWithSocket { id := 0 } rfl

/-- C4: If an inbound message's payload is not a raw byte array, or is a
byte array the Frame Codec fails to decode, the message callback
dispatches nothing, emits exactly one diagnostic log line, and so leaves
any model — in particular `connected` and the socket — unchanged, without
crashing (the handler is a total function). -/
theorem on_message_failure_drops (ev : MessageEvent) (m : Model)
    (h : (∀ b, ev.data ≠ JsValue.arrayBuffer b)
        ∨ ∃ b e, ev.data = JsValue.arrayBuffer b
            ∧ ResponseFrame.decode b = Except.error e) :
    (build_on_message ev).1 = []
    ∧ (build_on_message ev).2.length = 1
    ∧ applyDispatched m (build_on_message ev).1 = m := by
  obtain ⟨d⟩ := ev
  cases d with
  | other s => simp [build_on_message, applyDispatched]
  | arrayBuffer b =>
      rcases h with h | ⟨b2, e, hb, hd⟩
      · exact absurd rfl (h b)
      · have hbb : b = b2 := by injection hb
        subst hbb
        simp [build_on_message, hd, applyDispatched]

/-- C4 witness: the drop theorem at a concrete non-buffer payload and a
concrete model. -/
theorem on_message_failure_drops_witness :
    (build_on_message { data := JsValue.other "a string payload" }).1 = []
    ∧ (build_on_message { data := JsValue.other "a string payload" }).2.length = 1
    ∧ applyDispatched modelWithSocket
        (build_on_message { data := JsValue.other "a string payload" }).1 = modelWithSocket :=
  on_message_failure_drops { data := JsValue.other "a string payload" } modelWithSocket
    (Or.inl (fun b hb => JsValue.noConfusion hb))

/-- C5 counterexample: the reducer is not free of observable behaviour
beyond the returned state and effect — `SendRequest` on a state with a
transport transmits the encoded frame over the socket, so the
transmission trace of the step is nonempty at this concrete input. -/
theorem reducer_send_is_observable :
    (NetworkEvent.reducer (NetworkEvent.SendRequest { payload := [7] }) modelWithSocket).2.2
      ≠ [] := by
  decide

/-- C5 (amended): the reducer is a deterministic function of
`(prior state, event)` — in this embedding it is a pure function, so two
runs on the same inputs agree — its effect is always `Render` or `Skip`,
and its only observable behaviour beyond the returned state and effect is
that `SendRequest` on a state with a transport transmits exactly the
encoded request frame. -/
theorem reducer_deterministic_effects (e : NetworkEvent) (m : Model) :
    ((NetworkEvent.reducer e m).2.1 = Effect.Render
      ∨ (NetworkEvent.reducer e m).2.1 = Effect.Skip)
    ∧ ((NetworkEvent.reducer e m).2.2 = []
      ∨ ∃ req, e = NetworkEvent.SendRequest req ∧ m.network.socket ≠ none
          ∧ (NetworkEvent.reducer e m).2.2 = [req.encode]) := by
  cases e with
  | Connected => simp [NetworkEvent.reducer]
  | Disconnected => simp [NetworkEvent.reducer]
  | NewSocket ws => simp [NetworkEvent.reducer]
  | NewClosure cb => simp [NetworkEvent.reducer]
  | SendRequest req =>
      cases hs : m.network.socket with
      | none => simp [NetworkEvent.reducer, hs]
      | some ws =>
          exact ⟨Or.inl (by simp [NetworkEvent.reducer, hs]),
            Or.inr ⟨req, rfl, by simp [hs], by simp [NetworkEvent.reducer, hs]⟩⟩

/-- C6: the reducer clears the transport exactly on `Disconnected`: an
event's transition sets the socket to none on every prior state if and
only if the event is `Disconnected`, and no other event ever turns a
present socket into an absent one. -/
theorem transport_cleared_iff_disconnected :
    (∀ e : NetworkEvent,
        (∀ m : Model, (NetworkEvent.reducer e m).1.network.socket = none)
          ↔ e = NetworkEvent.Disconnected)
    ∧ ∀ (e : NetworkEvent) (m : Model), e ≠ NetworkEvent.Disconnected →
        m.network.socket ≠ none → (NetworkEvent.reducer e m).1.network.socket ≠ none := by
  constructor
  · intro e
    constructor
    · intro hall
      cases e with
      | Connected =>
          have := hall modelWithSocket
          simp [NetworkEvent.reducer, modelWithSocket] at this
      | Disconnected => rfl
      | NewSocket ws =>
          have := hall modelWithSocket
          simp [NetworkEvent.reducer] at this
      | NewClosure cb =>
          have := hall modelWithSocket
          simp [NetworkEvent.reducer, modelWithSocket] at this
      | SendRequest req =>
          have := hall modelWithSocket
          simp [NetworkEvent.reducer, modelWithSocket] at this
    · intro he m
      subst he
      simp [NetworkEvent.reducer]
  · intro e m hne hs
    cases e with
    | Connected => simpa [NetworkEvent.reducer] using hs
    | Disconnected => exact absurd rfl hne
    | NewSocket ws => simp [NetworkEvent.reducer]
    | NewClosure cb => simpa [NetworkEvent.reducer] using hs
    | SendRequest req =>
        cases hsock : m.network.socket with
        | none => exact absurd hsock hs
        | some ws => simpa [NetworkEvent.reducer, hsock] using hs

/-- C6 witness: the second conjunct applied at a concrete non-disconnect
event and a model with a present socket. -/
theorem transport_cleared_iff_disconnected_witness :
    (NetworkEvent.reducer NetworkEvent.Connected modelWithSocket).1.network.socket ≠ none :=
  transport_cleared_iff_disconnected.2 NetworkEvent.Connected modelWithSocket
    (by decide) (by decide)

/-- C7: applying `Disconnected` to a state already fully disconnected
(`connected = false`, no socket, no closures) returns that very state,
the `Render` effect, and no transmission — disconnect handling is
idempotent. -/
theorem disconnected_idempotent (m : Model)
    (h1 : m.network.connected = false) (h2 : m.network.socket = none)
    (h3 : m.network.closures = []) :
    NetworkEvent.reducer NetworkEvent.Disconnected m = (m, Effect.Render, []) := by
  obtain ⟨⟨c, s, cl⟩, it, cnt⟩ := m
  simp only [NetworkEvent.reducer]
  simp_all

/-- C7 witness: idempotence of `Disconnected` at the initial model. -/
theorem disconnected_idempotent_witness :
    NetworkEvent.reducer NetworkEvent.Disconnected Model.initial
      = (Model.initial, Effect.Render, []) :=
  disconnected_idempotent Model.initial rfl rfl rfl

/-- C8: the error callback installed by `open_ws` is the close callback
(both are built by `build_on_close`), and on every invocation it
dispatches exactly the `Disconnected` event, with no error payload. -/
theorem error_handler_eq_close_handler (v : JsValue) :
    open_ws.on_error v = open_ws.on_close v
    ∧ open_ws.on_error v = [ModelEvent.Network NetworkEvent.Disconnected] :=
  ⟨rfl, rfl⟩

/-- C9: for every prior state and closure handle, `NewClosure` leaves
`connected` and the socket unchanged, changes the closures list only by
appending the handle at the end, leaves the pending-input buffer and the
sent counter unchanged, and returns the `Skip` effect. -/
theorem newClosure_appends (m : Model) (cb : WSClosure) :
    (NetworkEvent.reducer (NetworkEvent.NewClosure cb) m).1.network.connected
      = m.network.connected
    ∧ (NetworkEvent.reducer (NetworkEvent.NewClosure cb) m).1.network.socket
      = m.network.socket
    ∧ (NetworkEvent.reducer (NetworkEvent.NewClosure cb) m).1.network.closures
      = m.network.closures ++ [cb]
    ∧ (NetworkEvent.reducer (NetworkEvent.NewClosure cb) m).1.input_text = m.input_text
    ∧ (NetworkEvent.reducer (NetworkEvent.NewClosure cb) m).1.msg_tx_cnt = m.msg_tx_cnt
    ∧ (NetworkEvent.reducer (NetworkEvent.NewClosure cb) m).2.1 = Effect.Skip := by
  simp [NetworkEvent.reducer]

/-- C10: for every prior state — including states with no transport —
`Connected` sets `connected` to true, leaves the socket and the closures
unchanged, and returns the `Render` effect; in particular, applying
`Connected` to the initial state reaches
`{connected := true, socket := none}`, since the reducer performs no
ordering validation. -/
theorem connected_sets_flag_only (m : Model) :
    ((NetworkEvent.reducer NetworkEvent.Connected m).1.network.connected = true
    ∧ (NetworkEvent.reducer NetworkEvent.Connected m).1.network.socket = m.network.socket
    ∧ (NetworkEvent.reducer NetworkEvent.Connected m).1.network.closures
      = m.network.closures
    ∧ (NetworkEvent.reducer NetworkEvent.Connected m).2.1 = Effect.Render)
    ∧ ((NetworkEvent.reducer NetworkEvent.Connected Model.initial).1.network.connected = true
    ∧ (NetworkEvent.reducer NetworkEvent.Connected Model.initial).1.network.socket = none) := by
  exact ⟨by simp [NetworkEvent.reducer], by decide⟩
